import Mathlib

set_option maxRecDepth 4000

/-!
Verification development for the Portfolio-Stress-Test repository.

The embedded code is the React client in
src/portfolio-stress-test/src/App.js.  JavaScript numbers are modelled
as rationals, JavaScript strings as Lean strings, and the asynchronous
fetch calls as explicit response parameters: each operation takes the
collaborator response it would receive and returns the resulting
component state together with a Bool recording whether an outbound
network call was made.
-/

namespace PortfolioStressTest

/-! ### JavaScript string primitives -/

/-- White-space test used by the JavaScript string functions
(space, tab, line feed, carriage return, vertical tab, form feed). -/
def jsWhitespace (c : Char) : Bool :=
  c = ' ' || c = '\t' || c = '\n' || c = '\r' || c = '\x0b' || c = '\x0c'

/-- Model of JavaScript String.prototype.trim: remove leading and
trailing white space. -/
def jsTrim (s : String) : String :=
  String.mk (((s.data.dropWhile jsWhitespace).reverse.dropWhile jsWhitespace).reverse)

/-- Model of JavaScript String.prototype.toUpperCase, restricted to the
ASCII range that the application actually feeds it. -/
def jsToUpperCase (s : String) : String :=
  String.mk (s.data.map Char.toUpper)

/-! ### JavaScript parseFloat

parseFloat skips leading white space and reads the longest prefix that
is a decimal literal: an optional sign, digits with an optional decimal
point, and an optional exponent part; everything after that prefix is
ignored.  If no digits are read the result is NaN, modelled as none.
The scan stage below returns the signed mantissa digits, the number of
fraction digits and the exponent as integers; the value is assembled as
a rational in a second stage. -/

/-- Longest digit prefix of a character list, together with the rest. -/
def takeDigits : List Char → List Char × List Char
  | [] => ([], [])
  | c :: cs =>
    if c.isDigit then
      let p := takeDigits cs
      (c :: p.1, p.2)
    else
      ([], c :: cs)

/-- Value of a digit string read in base 10. -/
def digitsToNat (ds : List Char) : Nat :=
  ds.foldl (fun a c => 10 * a + (c.toNat - 48)) 0

/-- Exponent digits with an optional sign; an ill-formed exponent
contributes nothing, as in parseFloat ("1e+" parses as 1). -/
def expDigits (cs : List Char) : Int :=
  match cs with
  | '+' :: r => if (takeDigits r).1.isEmpty then 0 else (digitsToNat (takeDigits r).1 : Int)
  | '-' :: r => if (takeDigits r).1.isEmpty then 0 else -(digitsToNat (takeDigits r).1 : Int)
  | r => if (takeDigits r).1.isEmpty then 0 else (digitsToNat (takeDigits r).1 : Int)

/-- Exponent part: an e or E followed by signed digits, else zero. -/
def expPart : List Char → Int
  | 'e' :: r => expDigits r
  | 'E' :: r => expDigits r
  | _ => 0

/-- Syntactic scan stage of parseFloat: signed mantissa (all digits
read, integer and fraction together), number of fraction digits, and
exponent.  none models NaN. -/
def scanFloat (s : String) : Option (Int × Nat × Int) :=
  let cs := s.data.dropWhile jsWhitespace
  let sgnCs : Int × List Char :=
    match cs with
    | '-' :: r => (-1, r)
    | '+' :: r => (1, r)
    | r => (1, r)
  let intPart := takeDigits sgnCs.2
  let fracPart : List Char × List Char :=
    match intPart.2 with
    | '.' :: r => takeDigits r
    | r => ([], r)
  if intPart.1.isEmpty && fracPart.1.isEmpty then
    none
  else
    some (sgnCs.1 * (digitsToNat (intPart.1 ++ fracPart.1) : Int),
          fracPart.1.length, expPart fracPart.2)

/-- Model of JavaScript parseFloat over exact rationals. -/
def parseFloat (s : String) : Option ℚ :=
  (scanFloat s).map (fun t => (t.1 : ℚ) / (10 : ℚ) ^ t.2.1 * (10 : ℚ) ^ t.2.2)

theorem parseFloat_of_scan (s : String) (m : Int) (k : Nat) (e : Int)
    (h : scanFloat s = some (m, k, e)) :
    parseFloat s = some ((m : ℚ) / (10 : ℚ) ^ k * (10 : ℚ) ^ e) := by
  simp [parseFloat, h]

theorem parseFloat_empty : parseFloat "" = none := by decide

/-! ### Data model of the client -/

/-- One portfolio entry, as built in addStock:
{ ticker: ticker.toUpperCase(), shares: sharesNum, id: Date.now() }. -/
structure Holding where
  ticker : String
  shares : ℚ
  id : Nat
deriving DecidableEq

/-- One search suggestion as returned by the search endpoint
({ticker, name, price, sector}). -/
structure StockInfo where
  ticker : String
  name : String
  price : ℚ
  sector : String
deriving DecidableEq

/-- One shock scenario of a stress-test response. -/
structure Scenario where
  name : String
  description : String
  impactPercent : ℚ
  resultingValue : ℚ
  lossOrGain : ℚ
deriving DecidableEq

/-- The stress-test response aggregate displayed by the results
section. -/
structure StressTestResult where
  currentValue : ℚ
  worstCaseValue : ℚ
  potentialLoss : ℚ
  lossPercentage : ℚ
  scenarios : List Scenario
deriving DecidableEq

/-- The React component state: one field per useState hook of App. -/
structure AppState where
  portfolio : List Holding
  ticker : String
  shares : String
  stressTestResults : Option StressTestResult
  loading : Bool
  aiInsights : String
  error : String
  validating : Bool
  searchResults : List StockInfo
  showSuggestions : Bool
  searching : Bool
deriving DecidableEq

/-- The initial state given by the useState initializers of App. -/
def initialState : AppState :=
  { portfolio := []
    ticker := ""
    shares := ""
    stressTestResults := none
    loading := false
    aiInsights := ""
    error := ""
    validating := false
    searchResults := []
    showSuggestions := false
    searching := false }

/-! ### Collaborator responses

Each fetch in App.js is modelled by a response value handed to the
operation; the Bool in each result records whether the outbound call
was actually issued. -/

/-- Outcome of the POST /api/validate-ticker call: the parsed body had
valid true, valid false, or the fetch threw (network or service
failure). -/
inductive ValidateResponse where
  | valid
  | invalid
  | failure
deriving DecidableEq

/-- Outcome of the GET /api/search-stocks call: a parsed results list
(data.results or [] when the field is missing), or a thrown fetch. -/
inductive SearchResponse where
  | ok (results : List StockInfo)
  | failure
deriving DecidableEq

/-- Outcome of the POST /api/stress-test call: response.ok with parsed
results and ai insights, a non-ok response with an optional error
field, or a thrown fetch. -/
inductive StressResponse where
  | ok (results : StressTestResult) (insights : String)
  | httpError (errMsg : Option String)
  | failure
deriving DecidableEq

/-! ### addStock -/

/-- Embedding of addStock in App.js.  now is the value Date.now()
returns when the holding is created; resp is the outcome of the
validate-ticker call, consulted only when the local checks pass.  The
second component records whether the fetch was issued. -/
def addStock (st : AppState) (now : Nat) (resp : ValidateResponse) :
    AppState × Bool :=
  let st0 := { st with error := "" }
  if st0.ticker = "" ∨ jsTrim st0.ticker = "" then
    ({ st0 with error := "Please enter a stock ticker" }, false)
  else
    let sharesNum := parseFloat st0.shares
    if st0.shares = "" ∨ sharesNum = none ∨ sharesNum.getD 0 ≤ 0 then
      ({ st0 with error := "Please enter a valid number of shares (greater than 0)" }, false)
    else
      let st1 := { st0 with validating := true }
      match resp with
      | .invalid =>
        ({ st1 with
            error := "Invalid ticker symbol: " ++ jsToUpperCase st0.ticker
                       ++ ". Please check and try again."
            validating := false }, true)
      | .failure =>
        ({ st1 with
            error := "Unable to validate ticker. Make sure the backend is running."
            validating := false }, true)
      | .valid =>
        ({ st1 with
            portfolio := st0.portfolio ++
              [{ ticker := jsToUpperCase st0.ticker
                 shares := sharesNum.getD 0
                 id := now }]
            ticker := ""
            shares := ""
            error := ""
            validating := false }, true)

/-! ### removeStock -/

/-- Embedding of removeStock: portfolio.filter(stock => stock.id !== id). -/
def removeStock (p : List Holding) (i : Nat) : List Holding :=
  p.filter (fun stock => stock.id ≠ i)

/-! ### runStressTest -/

/-- Embedding of runStressTest.  resp is the outcome of the
stress-test call, consulted only when the portfolio is nonempty. -/
def runStressTest (st : AppState) (resp : StressResponse) :
    AppState × Bool :=
  if st.portfolio.length = 0 then
    ({ st with error := "Please add stocks to your portfolio first" }, false)
  else
    let st1 := { st with loading := true, error := "" }
    match resp with
    | .ok results insights =>
      ({ st1 with
          stressTestResults := some results
          aiInsights := insights
          error := ""
          loading := false }, true)
    | .httpError m =>
      ({ st1 with
          error :=
            match m with
            | some s => if s = "" then "Failed to run stress test" else s
            | none => "Failed to run stress test"
          loading := false }, true)
    | .failure =>
      ({ st1 with
          error := "Failed to run stress test. Make sure the backend is running."
          loading := false }, true)

/-! ### searchStocks -/

/-- The response-handling tail of searchStocks: on success set the
results and show suggestions iff the list is nonempty; on a thrown
fetch only log to the console and clear the results - the error state
is not touched.  Both paths clear the searching flag (finally). -/
def applySearchResponse (st : AppState) (resp : SearchResponse) : AppState :=
  match resp with
  | .ok rs =>
    { st with
        searchResults := rs
        showSuggestions := decide (0 < rs.length)
        searching := false }
  | .failure =>
    { st with searchResults := [], searching := false }

/-- Embedding of searchStocks as a single atomic call: the empty-query
guard, and otherwise the fetch followed by its response handling.  The
second component records whether the fetch was issued. -/
def searchStocks (st : AppState) (query : String) (resp : SearchResponse) :
    AppState × Bool :=
  if query = "" ∨ query.length < 1 then
    ({ st with searchResults := [], showSuggestions := false }, false)
  else
    (applySearchResponse { st with searching := true } resp, true)

/-! ### The search subsystem over time

handleTickerChange debounces searchStocks behind a 300 ms timeout; a
fire event below models one such timer expiring, which issues the
fetch for its query (when nonempty).  An arrive event models the fetch
of the i-th issued call resolving; App.js applies every resolving
response unconditionally - there is no request token.  The issued list
records the queries whose fetches have been sent, in issue order. -/

structure SearchSession where
  issued : List String
  app : AppState
deriving DecidableEq

inductive SearchEvent where
  | fire (q : String)
  | arrive (i : Nat) (resp : SearchResponse)
deriving DecidableEq

/-- One step of the search subsystem. -/
def searchStep (s : SearchSession) : SearchEvent → SearchSession
  | .fire q =>
    if q = "" ∨ q.length < 1 then
      { s with app := { s.app with searchResults := [], showSuggestions := false } }
    else
      { issued := s.issued ++ [q], app := { s.app with searching := true } }
  | .arrive i resp =>
    if i < s.issued.length then
      { s with app := applySearchResponse s.app resp }
    else
      s

/-- Run of the search subsystem over a list of events. -/
def searchRun (s : SearchSession) (evts : List SearchEvent) : SearchSession :=
  evts.foldl searchStep s

/-! ### The stress-test backend arithmetic

Modelled from the spec: the Flask backend (App.py) that computes the
stress-test response is not part of src/; only its client is.  The
scenario arithmetic and the aggregate below follow sections 3, 4.4 and
8 of the specification: resultingValue = currentValue * (1 +
impactPercent/100), lossOrGain = resultingValue - currentValue,
worstCaseValue = minimum resultingValue over the scenarios,
potentialLoss = currentValue - worstCaseValue, and lossPercentage =
potentialLoss / currentValue * 100 guarded to zero when currentValue
is zero. -/

/-- Modelled from the spec: one scenario computed by the backend from
a generated impact percentage. -/
def mkScenario (currentValue : ℚ) (na desc : String) (impact : ℚ) : Scenario :=
  { name := na
    description := desc
    impactPercent := impact
    resultingValue := currentValue * (1 + impact / 100)
    lossOrGain := currentValue * (1 + impact / 100) - currentValue }

/-- Minimum of a list of rationals seeded with its first element. -/
def worstOf (cv : ℚ) (vs : List ℚ) : ℚ :=
  match vs with
  | [] => cv
  | x :: xs => xs.foldl min x

/-- Modelled from the spec: the backend aggregate of a stress-test
run over already-built scenarios. -/
def mkStressTestResult (cv : ℚ) (scs : List Scenario) : StressTestResult :=
  let worst := worstOf cv (scs.map Scenario.resultingValue)
  { currentValue := cv
    worstCaseValue := worst
    potentialLoss := cv - worst
    lossPercentage := if cv = 0 then 0 else (cv - worst) / cv * 100
    scenarios := scs }

/-! ### Helper lemmas -/

theorem foldl_min_le_init (xs : List ℚ) : ∀ x : ℚ, xs.foldl min x ≤ x := by
  induction xs with
  | nil => intro x; simp
  | cons a as ih =>
    intro x
    simpa using le_trans (ih (min x a)) (min_le_left x a)

theorem foldl_min_le_mem (xs : List ℚ) :
    ∀ x y : ℚ, y ∈ xs → xs.foldl min x ≤ y := by
  induction xs with
  | nil => intro x y h; cases h
  | cons a as ih =>
    intro x y h
    rcases List.mem_cons.mp h with h | h
    · rw [h]
      calc (a :: as).foldl min x = as.foldl min (min x a) := by simp
        _ ≤ min x a := foldl_min_le_init as (min x a)
        _ ≤ a := min_le_right x a
    · simpa using ih (min x a) y h

theorem foldl_min_self_or_mem (xs : List ℚ) :
    ∀ x : ℚ, xs.foldl min x = x ∨ xs.foldl min x ∈ xs := by
  induction xs with
  | nil => intro x; left; rfl
  | cons a as ih =>
    intro x
    have hfold : (a :: as).foldl min x = as.foldl min (min x a) := by simp
    rcases ih (min x a) with h | h
    · rcases min_cases x a with ⟨hm, _⟩ | ⟨hm, _⟩
      · left; rw [hfold, h, hm]
      · right; rw [hfold, h, hm]; exact List.mem_cons_self a as
    · right; rw [hfold]; exact List.mem_cons_of_mem a h

theorem worstOf_le (cv : ℚ) (vs : List ℚ) (y : ℚ) (h : y ∈ vs) :
    worstOf cv vs ≤ y := by
  cases vs with
  | nil => cases h
  | cons a as =>
    rcases List.mem_cons.mp h with h | h
    · rw [h]; exact foldl_min_le_init as a
    · exact foldl_min_le_mem as a y h

theorem worstOf_mem (cv : ℚ) (vs : List ℚ) (h : vs ≠ []) :
    worstOf cv vs ∈ vs := by
  cases vs with
  | nil => exact absurd rfl h
  | cons a as =>
    rcases foldl_min_self_or_mem as a with h' | h'
    · rw [worstOf, h']; exact List.mem_cons_self a as
    · rw [worstOf]; exact List.mem_cons_of_mem a h'

/-! ### C1 -/

/-- C1: for every stress-test result the application displays (as
computed by the backend, modelled from the spec), worstCaseValue is
the minimum resultingValue over the scenarios (a lower bound that is
attained), potentialLoss is currentValue minus worstCaseValue, and
lossPercentage is potentialLoss divided by currentValue times 100,
guarded to zero when currentValue is zero. -/
theorem stressResult_invariant (cv : ℚ) (scs : List Scenario) (h : scs ≠ []) :
    (∀ s ∈ (mkStressTestResult cv scs).scenarios,
        (mkStressTestResult cv scs).worstCaseValue ≤ s.resultingValue) ∧
    (∃ s ∈ (mkStressTestResult cv scs).scenarios,
        (mkStressTestResult cv scs).worstCaseValue = s.resultingValue) ∧
    (mkStressTestResult cv scs).potentialLoss
        = (mkStressTestResult cv scs).currentValue
            - (mkStressTestResult cv scs).worstCaseValue ∧
    (cv ≠ 0 → (mkStressTestResult cv scs).lossPercentage
        = (mkStressTestResult cv scs).potentialLoss
            / (mkStressTestResult cv scs).currentValue * 100) ∧
    (cv = 0 → (mkStressTestResult cv scs).lossPercentage = 0) := by
  have hmap : scs.map Scenario.resultingValue ≠ [] := by
    simpa using h
  refine ⟨?_, ?_, rfl, ?_, ?_⟩
  · intro s hs
    exact worstOf_le cv _ s.resultingValue (List.mem_map_of_mem Scenario.resultingValue hs)
  · have hm := worstOf_mem cv (scs.map Scenario.resultingValue) hmap
    rcases List.mem_map.mp hm with ⟨s, hs, hv⟩
    exact ⟨s, hs, hv.symm⟩
  · intro hcv
    simp [mkStressTestResult, hcv]
  · intro hcv
    simp [mkStressTestResult, hcv]

/-- Concrete scenario list used by the witness below: one bearish and
one bullish scenario over a 10000 portfolio. -/
def demoScenarios : List Scenario :=
  [mkScenario 10000 "Market Crash" "Severe broad downturn" (-20),
   mkScenario 10000 "Bull Rally" "Broad market rally" 10]

theorem stressResult_invariant_witness :
    demoScenarios ≠ [] ∧
    ((∀ s ∈ (mkStressTestResult 10000 demoScenarios).scenarios,
        (mkStressTestResult 10000 demoScenarios).worstCaseValue ≤ s.resultingValue) ∧
     (∃ s ∈ (mkStressTestResult 10000 demoScenarios).scenarios,
        (mkStressTestResult 10000 demoScenarios).worstCaseValue = s.resultingValue) ∧
     (mkStressTestResult 10000 demoScenarios).potentialLoss
        = (mkStressTestResult 10000 demoScenarios).currentValue
            - (mkStressTestResult 10000 demoScenarios).worstCaseValue ∧
     ((10000 : ℚ) ≠ 0 → (mkStressTestResult 10000 demoScenarios).lossPercentage
        = (mkStressTestResult 10000 demoScenarios).potentialLoss
            / (mkStressTestResult 10000 demoScenarios).currentValue * 100) ∧
     ((10000 : ℚ) = 0 → (mkStressTestResult 10000 demoScenarios).lossPercentage = 0)) :=
  ⟨by simp [demoScenarios], stressResult_invariant 10000 demoScenarios (by simp [demoScenarios])⟩

/-! ### C2 -/

/-- C2: a stress test on an empty portfolio is rejected locally: the
only state change is the user-visible error message, and no outbound
call is made. -/
theorem runStressTest_empty_rejected (st : AppState) (resp : StressResponse)
    (h : st.portfolio = []) :
    runStressTest st resp
      = ({ st with error := "Please add stocks to your portfolio first" }, false) := by
  simp [runStressTest, h]

theorem runStressTest_empty_rejected_witness :
    initialState.portfolio = [] ∧
    runStressTest initialState .failure
      = ({ initialState with error := "Please add stocks to your portfolio first" }, false) :=
  ⟨rfl, runStressTest_empty_rejected initialState .failure rfl⟩

/-! ### addStock branch lemmas -/

theorem jsTrim_empty : jsTrim "" = "" := by decide

theorem prefixed_ne_empty (a b c : String) (ha : a.length ≠ 0) :
    a ++ b ++ c ≠ "" := by
  intro h
  have hl := congrArg String.length h
  simp only [String.length_append] at hl
  simp only [show ("" : String).length = 0 from rfl] at hl
  omega

theorem addStock_guards_pass (st : AppState) (v : ℚ)
    (ht : jsTrim st.ticker ≠ "") (hp : parseFloat st.shares = some v) (hv : 0 < v) :
    ¬(st.ticker = "" ∨ jsTrim st.ticker = "") ∧
    ¬(st.shares = "" ∨ parseFloat st.shares = none
        ∨ (parseFloat st.shares).getD 0 ≤ 0) := by
  constructor
  · rintro (h | h)
    · exact ht (by rw [h, jsTrim_empty])
    · exact ht h
  · rintro (h | h | h)
    · rw [h, parseFloat_empty] at hp; cases hp
    · rw [hp] at h; cases h
    · rw [hp] at h; exact absurd h (not_le.mpr hv)

theorem addStock_valid_eq (st : AppState) (now : Nat) (v : ℚ)
    (ht : jsTrim st.ticker ≠ "") (hp : parseFloat st.shares = some v) (hv : 0 < v) :
    addStock st now .valid
      = ({ st with
            portfolio := st.portfolio ++
              [{ ticker := jsToUpperCase st.ticker, shares := v, id := now }]
            ticker := ""
            shares := ""
            error := ""
            validating := false }, true) := by
  obtain ⟨h1, h2⟩ := addStock_guards_pass st v ht hp hv
  simp [addStock, h1, h2, hp]
  exact ⟨fun hc => h2 (Or.inl hc), hv⟩

theorem addStock_invalid_eq (st : AppState) (now : Nat) (v : ℚ)
    (ht : jsTrim st.ticker ≠ "") (hp : parseFloat st.shares = some v) (hv : 0 < v) :
    addStock st now .invalid
      = ({ st with
            error := "Invalid ticker symbol: " ++ jsToUpperCase st.ticker
                       ++ ". Please check and try again."
            validating := false }, true) := by
  obtain ⟨h1, h2⟩ := addStock_guards_pass st v ht hp hv
  simp [addStock, h1, h2]

theorem addStock_netfail_eq (st : AppState) (now : Nat) (v : ℚ)
    (ht : jsTrim st.ticker ≠ "") (hp : parseFloat st.shares = some v) (hv : 0 < v) :
    addStock st now .failure
      = ({ st with
            error := "Unable to validate ticker. Make sure the backend is running."
            validating := false }, true) := by
  obtain ⟨h1, h2⟩ := addStock_guards_pass st v ht hp hv
  simp [addStock, h1, h2]

/-! ### Concrete parseFloat values used by witnesses -/

theorem parseFloat_zero : parseFloat "0" = some 0 := by
  rw [parseFloat_of_scan "0" 0 0 0 (by decide)]; norm_num

theorem parseFloat_one : parseFloat "1" = some 1 := by
  rw [parseFloat_of_scan "1" 1 0 0 (by decide)]; norm_num

theorem parseFloat_two : parseFloat "2" = some 2 := by
  rw [parseFloat_of_scan "2" 2 0 0 (by decide)]; norm_num

theorem parseFloat_three : parseFloat "3" = some 3 := by
  rw [parseFloat_of_scan "3" 3 0 0 (by decide)]; norm_num

theorem parseFloat_ten_trailing : parseFloat "10abc" = some 10 := by
  rw [parseFloat_of_scan "10abc" 10 0 0 (by decide)]; norm_num

/-! ### C3 -/

/-- C3: an add-stock call whose ticker is empty or whitespace-only, or
whose shares input does not parse to a positive number, is rejected
locally: a user-visible error is set, the portfolio is unchanged, and
the validation collaborator is never called. -/
theorem addStock_invalidInput (st : AppState) (now : Nat) (resp : ValidateResponse)
    (h : jsTrim st.ticker = "" ∨ parseFloat st.shares = none ∨
         ∃ v, parseFloat st.shares = some v ∧ v ≤ 0) :
    (addStock st now resp).2 = false ∧
    (addStock st now resp).1.portfolio = st.portfolio ∧
    (addStock st now resp).1.error ≠ "" := by
  by_cases h1 : st.ticker = "" ∨ jsTrim st.ticker = ""
  · simp [addStock, h1]
  · have ht : ¬jsTrim st.ticker = "" := fun hc => h1 (Or.inr hc)
    have h2 : st.shares = "" ∨ parseFloat st.shares = none
        ∨ (parseFloat st.shares).getD 0 ≤ 0 := by
      rcases h with h | h | ⟨v, hv, hv0⟩
      · exact absurd h ht
      · exact Or.inr (Or.inl h)
      · exact Or.inr (Or.inr (by rw [hv]; exact hv0))
    simp [addStock, h1, h2]

theorem addStock_invalidInput_witness :
    (jsTrim ("AAPL" : String) = "" ∨ parseFloat "0" = none ∨
       ∃ v, parseFloat "0" = some v ∧ v ≤ 0) ∧
    ((addStock { initialState with ticker := "AAPL", shares := "0" } 0 .valid).2 = false ∧
     (addStock { initialState with ticker := "AAPL", shares := "0" } 0 .valid).1.portfolio
        = ({ initialState with ticker := "AAPL", shares := "0" } : AppState).portfolio ∧
     (addStock { initialState with ticker := "AAPL", shares := "0" } 0 .valid).1.error ≠ "") :=
  ⟨Or.inr (Or.inr ⟨0, parseFloat_zero, le_refl 0⟩),
   addStock_invalidInput { initialState with ticker := "AAPL", shares := "0" } 0 .valid
     (Or.inr (Or.inr ⟨0, parseFloat_zero, le_refl 0⟩))⟩

/-! ### C4 -/

/-- C4: when the validation collaborator answers that the ticker is
not valid, or the call to it fails, a user-visible error is shown, the
portfolio is left exactly unchanged, and the outbound call was the one
that produced the answer. -/
theorem addStock_collaborator_reject (st : AppState) (now : Nat)
    (resp : ValidateResponse) (v : ℚ)
    (ht : jsTrim st.ticker ≠ "") (hp : parseFloat st.shares = some v) (hv : 0 < v)
    (hr : resp = .invalid ∨ resp = .failure) :
    (addStock st now resp).2 = true ∧
    (addStock st now resp).1.portfolio = st.portfolio ∧
    (addStock st now resp).1.error ≠ "" := by
  rcases hr with rfl | rfl
  · rw [addStock_invalid_eq st now v ht hp hv]
    refine ⟨rfl, rfl, ?_⟩
    exact prefixed_ne_empty "Invalid ticker symbol: " (jsToUpperCase st.ticker)
      ". Please check and try again." (by decide)
  · rw [addStock_netfail_eq st now v ht hp hv]
    refine ⟨rfl, rfl, ?_⟩
    show ("Unable to validate ticker. Make sure the backend is running." : String) ≠ ""
    decide

theorem addStock_collaborator_reject_witness :
    (jsTrim ("aapl" : String) ≠ "" ∧ parseFloat "1" = some 1 ∧ (0 : ℚ) < 1) ∧
    ((addStock { initialState with ticker := "aapl", shares := "1" } 0 .invalid).2 = true ∧
     (addStock { initialState with ticker := "aapl", shares := "1" } 0 .invalid).1.portfolio
        = ({ initialState with ticker := "aapl", shares := "1" } : AppState).portfolio ∧
     (addStock { initialState with ticker := "aapl", shares := "1" } 0 .invalid).1.error ≠ "") :=
  ⟨⟨by decide, parseFloat_one, by norm_num⟩,
   addStock_collaborator_reject { initialState with ticker := "aapl", shares := "1" } 0
     .invalid 1 (by decide) parseFloat_one (by norm_num) (Or.inl rfl)⟩

/-! ### C5 -/

/-- C5 counterexample: with input ticker " aapl" (leading space), a
positive share count and a valid collaborator answer, the stored
symbol is " AAPL" - the uppercased raw input - while the claim
requires the trimmed-and-uppercased "AAPL", which differs. -/
theorem addStock_no_trim_counterexample :
    (addStock { initialState with ticker := " aapl", shares := "1" } 7 .valid).1.portfolio
      = [{ ticker := " AAPL", shares := 1, id := 7 }] ∧
    jsToUpperCase (jsTrim " aapl") = "AAPL" ∧
    (" AAPL" : String) ≠ "AAPL" := by
  refine ⟨?_, by decide, by decide⟩
  rw [addStock_valid_eq _ 7 1 (by decide) parseFloat_one (by norm_num)]
  decide

/-- C5 amended: for every accepted input, the symbol stored in the new
Holding is the input converted to uppercase; surrounding whitespace is
preserved, not trimmed. -/
theorem addStock_symbol_uppercase_only (st : AppState) (now : Nat) (v : ℚ)
    (ht : jsTrim st.ticker ≠ "") (hp : parseFloat st.shares = some v) (hv : 0 < v) :
    (addStock st now .valid).1.portfolio
      = st.portfolio
          ++ [{ ticker := jsToUpperCase st.ticker, shares := v, id := now }] := by
  rw [addStock_valid_eq st now v ht hp hv]

theorem addStock_symbol_uppercase_only_witness :
    (jsTrim (" aapl" : String) ≠ "" ∧ parseFloat "1" = some 1 ∧ (0 : ℚ) < 1) ∧
    (addStock { initialState with ticker := " aapl", shares := "1" } 9 .valid).1.portfolio
      = ({ initialState with ticker := " aapl", shares := "1" } : AppState).portfolio
          ++ [{ ticker := jsToUpperCase " aapl", shares := 1, id := 9 }] :=
  ⟨⟨by decide, parseFloat_one, by norm_num⟩,
   addStock_symbol_uppercase_only { initialState with ticker := " aapl", shares := "1" }
     9 1 (by decide) parseFloat_one (by norm_num)⟩

/-! ### C9 -/

/-- C9: any shares string whose parseFloat value is strictly positive
is accepted - including strings with trailing non-numeric characters,
such as "10abc" - and the shares field of the new Holding stores the
parsed numeric value, not the raw input string. -/
theorem addStock_stores_parsed_shares (st : AppState) (now : Nat) (v : ℚ)
    (ht : jsTrim st.ticker ≠ "") (hp : parseFloat st.shares = some v) (hv : 0 < v) :
    (addStock st now .valid).2 = true ∧
    (addStock st now .valid).1.portfolio
      = st.portfolio
          ++ [{ ticker := jsToUpperCase st.ticker, shares := v, id := now }] := by
  rw [addStock_valid_eq st now v ht hp hv]
  exact ⟨rfl, rfl⟩

theorem addStock_stores_parsed_shares_witness :
    (jsTrim ("aapl" : String) ≠ "" ∧ parseFloat "10abc" = some 10 ∧ (0 : ℚ) < 10) ∧
    ((addStock { initialState with ticker := "aapl", shares := "10abc" } 3 .valid).2 = true ∧
     (addStock { initialState with ticker := "aapl", shares := "10abc" } 3 .valid).1.portfolio
       = ({ initialState with ticker := "aapl", shares := "10abc" } : AppState).portfolio
           ++ [{ ticker := jsToUpperCase "aapl", shares := 10, id := 3 }]) :=
  ⟨⟨by decide, parseFloat_ten_trailing, by norm_num⟩,
   addStock_stores_parsed_shares { initialState with ticker := "aapl", shares := "10abc" }
     3 10 (by decide) parseFloat_ten_trailing (by norm_num)⟩

/-! ### C10 -/

/-- C10: removeStock removes exactly the holdings whose id equals the
given id, keeping every other holding unchanged and in order; holdings
created by addStock carry the Date.now() timestamp as id, so two
holdings added in the same millisecond share one id and a single
removeStock with that timestamp removes both. -/
theorem removeStock_exact :
    (∀ (p : List Holding) (i : Nat), (removeStock p i).Sublist p) ∧
    (∀ (p : List Holding) (i : Nat) (h : Holding),
        h ∈ removeStock p i ↔ h ∈ p ∧ h.id ≠ i) ∧
    (∀ (st : AppState) (t2 s2 : String) (now : Nat) (v1 v2 : ℚ),
        jsTrim st.ticker ≠ "" → parseFloat st.shares = some v1 → 0 < v1 →
        jsTrim t2 ≠ "" → parseFloat s2 = some v2 → 0 < v2 →
        removeStock ((addStock
            { (addStock st now .valid).1 with ticker := t2, shares := s2 }
            now .valid).1.portfolio) now
          = removeStock st.portfolio now) := by
  refine ⟨?_, ?_, ?_⟩
  · intro p i
    exact List.filter_sublist p
  · intro p i h
    simp [removeStock]
  · intro st t2 s2 now v1 v2 ht1 hp1 hv1 ht2 hp2 hv2
    rw [addStock_valid_eq st now v1 ht1 hp1 hv1]
    rw [addStock_valid_eq _ now v2 ht2 hp2 hv2]
    simp [removeStock]

theorem removeStock_exact_witness :
    removeStock ((addStock
        { (addStock { initialState with ticker := "aapl", shares := "3" } 5 .valid).1
            with ticker := "msft", shares := "2" } 5 .valid).1.portfolio) 5
      = removeStock
          ({ initialState with ticker := "aapl", shares := "3" } : AppState).portfolio 5 :=
  removeStock_exact.2.2 { initialState with ticker := "aapl", shares := "3" }
    "msft" "2" 5 3 2
    (by decide) parseFloat_three (by norm_num) (by decide) parseFloat_two (by norm_num)

/-! ### C8 -/

/-- C8: a search invocation with the empty query returns the empty
result list, hides the suggestion display, and does not call the
search collaborator. -/
theorem searchStocks_empty_query (st : AppState) (resp : SearchResponse) :
    searchStocks st "" resp
      = ({ st with searchResults := [], showSuggestions := false }, false) := by
  simp [searchStocks]

/-! ### C6 -/

/-- Suggestion row for the query "a" in the counterexample below. -/
def infoAlcoa : StockInfo :=
  { ticker := "AA", name := "Alcoa", price := 30, sector := "Materials" }

/-- Suggestion row for the query "ap" in the counterexample below. -/
def infoApple : StockInfo :=
  { ticker := "AAPL", name := "Apple", price := 200, sector := "Technology" }

/-- C6 counterexample: the user types "a" (its search fires), then
"ap" (its search fires); the response to "ap" arrives first and then
the response to "a" arrives.  App.js applies every resolving response
unconditionally, so the displayed list ends as the older query's
results, contradicting the claim that a response to an earlier-issued
query arriving after a newer query was issued is discarded. -/
theorem staleSearch_counterexample :
    (searchRun { issued := [], app := initialState }
        [.fire "a", .fire "ap",
         .arrive 1 (.ok [infoApple]), .arrive 0 (.ok [infoAlcoa])]).app.searchResults
      = [infoAlcoa] ∧
    [infoAlcoa] ≠ [infoApple] := by
  constructor
  · rfl
  · decide

/-- C6 amended: search responses are applied in arrival order - the
last response to arrive determines the displayed suggestion list,
whichever query it belongs to; App.js has no request token and never
discards a stale response. -/
theorem searchResults_last_arrival (s : SearchSession) (evts : List SearchEvent)
    (i : Nat) (rs : List StockInfo)
    (h : i < (searchRun s evts).issued.length) :
    (searchRun s (evts ++ [.arrive i (.ok rs)])).app.searchResults = rs := by
  rw [searchRun, List.foldl_append]
  show (searchStep (searchRun s evts) (.arrive i (.ok rs))).app.searchResults = rs
  rw [searchStep, if_pos h]
  rfl

theorem searchResults_last_arrival_witness :
    0 < (searchRun { issued := [], app := initialState } [.fire "a"]).issued.length ∧
    (searchRun { issued := [], app := initialState }
        ([.fire "a"] ++ [.arrive 0 (.ok [infoAlcoa])])).app.searchResults
      = [infoAlcoa] :=
  ⟨by decide,
   searchResults_last_arrival { issued := [], app := initialState } [.fire "a"]
     0 [infoAlcoa] (by decide)⟩

/-! ### C7 -/

/-- C7 counterexample: a search whose fetch fails makes the outbound
call (second component true) yet leaves the error state empty - the
failure is only logged to the console, so there is no user-visible
signal, contradicting the claim that a network failure of the search
call is not silently swallowed. -/
theorem searchFailure_silent_counterexample :
    (searchStocks initialState "aa" .failure).2 = true ∧
    (searchStocks initialState "aa" .failure).1.error = "" := by
  constructor
  · rfl
  · rfl

/-- C7 amended: failures of the validate and stress-test calls set a
nonempty user-visible error message, but a network failure of the
search call never touches the error state at all: it is silently
swallowed (the results list is merely cleared). -/
theorem failure_visibility :
    (∀ (st : AppState) (q : String),
        (searchStocks st q .failure).1.error = st.error) ∧
    (∀ (st : AppState) (now : Nat) (v : ℚ),
        jsTrim st.ticker ≠ "" → parseFloat st.shares = some v → 0 < v →
        (addStock st now .invalid).1.error ≠ ""
          ∧ (addStock st now .failure).1.error ≠ "") ∧
    (∀ (st : AppState) (m : Option String), st.portfolio ≠ [] →
        (runStressTest st (.httpError m)).1.error ≠ ""
          ∧ (runStressTest st .failure).1.error ≠ "") := by
  refine ⟨?_, ?_, ?_⟩
  · intro st q
    unfold searchStocks
    split <;> rfl
  · intro st now v ht hp hv
    constructor
    · rw [addStock_invalid_eq st now v ht hp hv]
      exact prefixed_ne_empty "Invalid ticker symbol: " (jsToUpperCase st.ticker)
        ". Please check and try again." (by decide)
    · rw [addStock_netfail_eq st now v ht hp hv]
      show ("Unable to validate ticker. Make sure the backend is running." : String) ≠ ""
      decide
  · intro st m hne
    have hlen : ¬st.portfolio.length = 0 := by
      simpa [List.length_eq_zero] using hne
    constructor
    · rw [runStressTest, if_neg hlen]
      match m with
      | none =>
        show ("Failed to run stress test" : String) ≠ ""
        decide
      | some s =>
        show (if s = "" then "Failed to run stress test" else s) ≠ ""
        by_cases hs : s = ""
        · rw [if_pos hs]; decide
        · rw [if_neg hs]; exact hs
    · rw [runStressTest, if_neg hlen]
      show ("Failed to run stress test. Make sure the backend is running." : String) ≠ ""
      decide

theorem failure_visibility_witness :
    (jsTrim ("aapl" : String) ≠ "" ∧ parseFloat "1" = some 1 ∧ (0 : ℚ) < 1) ∧
    ((addStock { initialState with ticker := "aapl", shares := "1" } 2 .invalid).1.error ≠ ""
       ∧ (addStock { initialState with ticker := "aapl", shares := "1" } 2 .failure).1.error ≠ "") :=
  ⟨⟨by decide, parseFloat_one, by norm_num⟩,
   failure_visibility.2.1 { initialState with ticker := "aapl", shares := "1" } 2 1
     (by decide) parseFloat_one (by norm_num)⟩

end PortfolioStressTest
